import Mathlib

/-!
Verification of the ai-predictor service (`src/apps/ai-predictor/app.py`)
against its natural-language specification.

The Python program is shallowly embedded below.  Machine reals are modelled
by `ℚ`; the third-party libraries (the numpy seeded random streams, the sklearn
RandomForest fitting, the square root used inside `StandardScaler`, joblib
persistence and the filesystem) are modelled as explicit parameters of an
environment record `Env`, since their internals are not part of this
repository.  Everything written in `app.py` itself — the model lifecycle,
bootstrap data synthesis, feature construction, scaling/prediction calls,
confidence computation, rounding, and the exception handling — is translated
line by line.
-/

/-- Fitted parameters of a `RandomForestRegressor`, abstracted as the
prediction function the fitted ensemble computes on a feature row. -/
structure RFParams where
  predictFn : (Fin 5 → ℚ) → ℚ

/-- A `RandomForestRegressor` object: its constructor arguments
(`n_estimators`, `max_depth`, `random_state`) and, once `fit` has been
called, its fitted parameters.  `fitted = none` models an unfit estimator,
whose `predict` raises `NotFittedError`. -/
structure RFModel where
  n_estimators : ℕ
  max_depth : Option ℕ
  random_state : ℕ
  fitted : Option RFParams

/-- Fitted parameters of a `StandardScaler`: per-feature mean and scale. -/
structure ScalerFit where
  mean : Fin 5 → ℚ
  scale : Fin 5 → ℚ

/-- A `StandardScaler` object; `fitted = none` models the unfit scaler
created by `StandardScaler()`, whose `transform` raises `NotFittedError`. -/
structure StdScaler where
  fitted : Option ScalerFit

/-- `scaler.transform` on one row: raises (`Except.error`) when the scaler
is not fitted, otherwise normalizes each feature by the fitted mean/scale. -/
def StdScaler.transform (s : StdScaler) (x : Fin 5 → ℚ) :
    Except String (Fin 5 → ℚ) :=
  match s.fitted with
  | none => Except.error "NotFittedError"
  | some f => Except.ok (fun j => (x j - f.mean j) / f.scale j)

/-- `model.predict(...)[0]` where `model : Option RFModel` is the
`self.model` attribute (`None` right after `__init__`): raises on `None`
(`AttributeError`) and on an unfit estimator (`NotFittedError`). -/
def modelPredictRow (m : Option RFModel) (x : Fin 5 → ℚ) : Except String ℚ :=
  match m with
  | none => Except.error "AttributeError"
  | some mdl =>
    match mdl.fitted with
    | none => Except.error "NotFittedError"
    | some p => Except.ok (p.predictFn x)

/-- The mutable state of an `AIWeatherPredictor` instance:
`self.model`, `self.scaler`, `self.model_version`, `self.is_trained`. -/
structure ModelState where
  model : Option RFModel
  scaler : StdScaler
  model_version : String
  is_trained : Bool

/-- State right after the field initializers in `__init__`, before
`_initialize_model` runs. -/
def ModelState.init : ModelState :=
  { model := none, scaler := { fitted := none },
    model_version := "1.0.0", is_trained := false }

/-- The `WeatherInput` pydantic model.  `historical_data` entries are
opaque JSON dictionaries, modelled as association lists. -/
structure WeatherInput where
  location : String
  current_temp : ℚ
  humidity : ℤ
  pressure : ℚ
  wind_speed : ℚ
  historical_data : Option (List (List (String × String)))
deriving DecidableEq

/-- The `WeatherPrediction` response model.  The `timestamp : datetime`
field is modelled as an abstract clock reading `ℕ`. -/
structure WeatherPrediction where
  location : String
  predicted_temp : ℚ
  confidence : ℚ
  forecast_hours : ℕ
  timestamp : ℕ
  model_version : String
deriving DecidableEq

/-- `fastapi.HTTPException` as raised by `predict_weather`. -/
structure HTTPException where
  status_code : ℕ
  detail : String
deriving DecidableEq

/-- Round an exact rational to the nearest integer, ties to the even
integer — the rounding the Python builtin `round` performs. -/
def roundHalfToEven (q : ℚ) : ℤ :=
  let n := ⌊q⌋
  let r := q - n
  if r < 1/2 then n
  else if 1/2 < r then n + 1
  else if n % 2 = 0 then n else n + 1

/-- The Python call `round(q, ndigits)`. -/
def pyRound (ndigits : ℕ) (q : ℚ) : ℚ :=
  (roundHalfToEven (q * 10 ^ ndigits) : ℚ) / 10 ^ ndigits

/-- Lines 120–126 of `app.py`: the feature row
`[current_temp, humidity, pressure, wind_speed, current_hour]`. -/
def buildFeatures (w : WeatherInput) (current_hour : ℕ) : Fin 5 → ℚ :=
  ![w.current_temp, (w.humidity : ℚ), w.pressure, w.wind_speed, (current_hour : ℚ)]

/-- Lines 128–144 of `app.py`: the body of the `try` block after the
feature row has been materialized, together with the `except` clause that
converts any raised exception into `HTTPException(500, "Prediction failed")`. -/
def predictPipeline (st : ModelState) (w : WeatherInput)
    (features : Fin 5 → ℚ) (now : ℕ) : Except HTTPException WeatherPrediction :=
  match st.scaler.transform features with
  | Except.error _ => Except.error { status_code := 500, detail := "Prediction failed" }
  | Except.ok features_scaled =>
    match modelPredictRow st.model features_scaled with
    | Except.error _ => Except.error { status_code := 500, detail := "Prediction failed" }
    | Except.ok predicted_temp =>
      let confidence : ℚ :=
        min 0.95 (max 0.6 (1.0 - |predicted_temp - w.current_temp| / 10))
      Except.ok
        { location := w.location
          predicted_temp := pyRound 2 predicted_temp
          confidence := pyRound 3 confidence
          forecast_hours := 1
          timestamp := now
          model_version := st.model_version }

/-- `AIWeatherPredictor.predict_weather` (lines 111–148).  The ambient
clock is passed explicitly: `current_hour` is `datetime.now().hour` and
`now` the timestamp placed in the response. -/
def predict_weather (st : ModelState) (w : WeatherInput)
    (current_hour : ℕ) (now : ℕ) : Except HTTPException WeatherPrediction :=
  if st.is_trained = false then
    Except.error { status_code := 503, detail := "Model not trained" }
  else
    predictPipeline st w (buildFeatures w current_hour) now

/-- `predict_weather` together with the instance state after the call:
the method never assigns to `self`, so the state is returned unchanged. -/
def predict_weather_full (st : ModelState) (w : WeatherInput)
    (current_hour : ℕ) (now : ℕ) :
    Except HTTPException WeatherPrediction × ModelState :=
  (predict_weather st w current_hour now, st)

/-- The ambient environment of the service: the seed-42 numpy streams,
the deterministic sklearn forest-fitting procedure, the square root used by
`StandardScaler`, and the filesystem/joblib behaviour.
`rand42 i j` is entry `(i, j)` of `np.random.rand(1000, 5)` after
`np.random.seed(42)`; `normal42 i` is the `i`-th draw of
`np.random.normal(0, 2, 1000)` in the same stream; `rfFit` is the
deterministic fit of a seed-42 forest on (scaled rows, labels);
`sqrtQ` is the square-root routine `StandardScaler` applies to the
per-feature variance.  `model_file_exists` is
the check that the model artifact file exists on disk;
`model_load`/`scaler_load` give the
object `joblib.load` returns for each artifact, `none` meaning the load
raises; `dump_model_ok`/`dump_scaler_ok` tell whether each `joblib.dump`
succeeds or raises. -/
structure Env where
  rand42 : ℕ → Fin 5 → ℚ
  normal42 : ℕ → ℚ
  rfFit : List (Fin 5 → ℚ) → List ℚ → RFParams
  sqrtQ : ℚ → ℚ
  model_file_exists : Bool
  model_load : Option RFModel
  scaler_load : Option ScalerFit
  dump_model_ok : Bool
  dump_scaler_ok : Bool

/-- Lines 88–93 of `app.py`: one raw synthetic feature row, produced by
remapping a row `r` of uniform draws into the physical ranges. -/
def rawFeature (r : Fin 5 → ℚ) : Fin 5 → ℚ :=
  ![r 0 * 40 - 10, r 1 * 100, r 2 * 100 + 950, r 3 * 20, r 4 * 24]

/-- The synthetic feature matrix `X` (1000 rows). -/
def trainX (env : Env) : List (Fin 5 → ℚ) :=
  (List.range 1000).map (fun i => rawFeature (env.rand42 i))

/-- Line 96 of `app.py`: the label vector
`y = X[:,0] + 0.1*X[:,1] - 0.05*X[:,2] + np.random.normal(0, 2, n)`. -/
def trainY (env : Env) : List ℚ :=
  (List.range 1000).map (fun i =>
    let x := rawFeature (env.rand42 i)
    x 0 + 0.1 * x 1 - 0.05 * x 2 + env.normal42 i)

/-- `StandardScaler.fit` on a raw feature matrix: per-feature mean, and
scale = square root of the per-feature population variance. -/
def fitScaler (env : Env) (X : List (Fin 5 → ℚ)) : ScalerFit :=
  let n : ℚ := X.length
  let mean : Fin 5 → ℚ := fun j => (X.map (fun r => r j)).sum / n
  { mean := mean
    scale := fun j => env.sqrtQ ((X.map (fun r => (r j - mean j) ^ 2)).sum / n) }

/-- The scaled feature matrix `X_scaled = self.scaler.fit_transform(X)`. -/
def scaledX (env : Env) : List (Fin 5 → ℚ) :=
  let sf := fitScaler env (trainX env)
  (trainX env).map (fun r => fun j => (r j - sf.mean j) / sf.scale j)

/-- `AIWeatherPredictor._train_dummy_model` (lines 81–109).  Returns the
state after the mutations of `self` done by the method, the list of artifact files
written, and the exception the method raised, if any.  Mutation order
follows the source: `self.scaler` is fitted first, then `self.model`,
then `self.is_trained = True`, then the two dumps (each of which may
raise, after which no further statement runs). -/
def train_dummy_model (env : Env) (st : ModelState) :
    ModelState × List String × Option String :=
  let sf := fitScaler env (trainX env)
  let st0 := { st with scaler := { fitted := some sf } }
  match st.model with
  | none => (st0, [], some "AttributeError")
  | some m =>
    let fitted := env.rfFit (scaledX env) (trainY env)
    let st1 := { st0 with
      model := some { m with fitted := some fitted }
      is_trained := true }
    if env.dump_model_ok = false then (st1, [], some "IOError")
    else if env.dump_scaler_ok = false then
      (st1, ["model.joblib"], some "IOError")
    else (st1, ["model.joblib", "scaler.joblib"], none)

/-- The fresh forest of line 70–74: `RandomForestRegressor(n_estimators=100,
random_state=42, max_depth=10)`. -/
def freshModel100 : RFModel :=
  { n_estimators := 100, max_depth := some 10, random_state := 42, fitted := none }

/-- The degraded forest of line 79: `RandomForestRegressor(n_estimators=50,
random_state=42)`. -/
def degradedModel50 : RFModel :=
  { n_estimators := 50, max_depth := none, random_state := 42, fitted := none }

/-- `AIWeatherPredictor._initialize_model` (lines 59–79).  Returns the
state after the method and the artifact files it wrote.  The `except`
branch replaces `self.model` by the degraded 50-tree forest and touches
nothing else. -/
def initialize_model (env : Env) (st : ModelState) : ModelState × List String :=
  if env.model_file_exists = true then
    match env.model_load with
    | none => ({ st with model := some degradedModel50 }, [])
    | some m =>
      match env.scaler_load with
      | none => ({ st with model := some degradedModel50 }, [])
      | some sf =>
        ({ st with model := some m, scaler := { fitted := some sf },
                   is_trained := true }, [])
  else
    let st1 := { st with model := some freshModel100 }
    match train_dummy_model env st1 with
    | (st2, written, none) => (st2, written)
    | (st2, written, some _) => ({ st2 with model := some degradedModel50 }, written)

/-- `AIWeatherPredictor.__init__`: field initializers then
`self._initialize_model()`. -/
def AIWeatherPredictor.new (env : Env) : ModelState × List String :=
  initialize_model env ModelState.init

/-- A prediction with its `timestamp` field erased, for statements that
compare responses "apart from the timestamp". -/
def WeatherPrediction.sansTime (p : WeatherPrediction) :
    String × ℚ × ℚ × ℕ × String :=
  (p.location, p.predicted_temp, p.confidence, p.forecast_hours, p.model_version)

/-! Concrete instances used to instantiate the theorems below. -/

/-- A concrete observation: the scenario input of the specification. -/
def obsA : WeatherInput :=
  { location := "loc", current_temp := 20, humidity := 50, pressure := 1013,
    wind_speed := 5, historical_data := none }

/-- The same observation as `obsA` except for `historical_data`. -/
def obsB : WeatherInput :=
  { location := "loc", current_temp := 20, humidity := 50, pressure := 1013,
    wind_speed := 5, historical_data := some [[("t", "19.5")]] }

/-- A concrete fitted forest whose prediction returns the first feature. -/
def rfFittedA : RFModel :=
  { n_estimators := 100, max_depth := some 10, random_state := 42,
    fitted := some { predictFn := fun x => x 0 } }

/-- A concrete fitted scaler acting as the identity transform. -/
def scalerFitA : ScalerFit :=
  { mean := fun _ => 0, scale := fun _ => 1 }

/-- A concrete trained predictor state. -/
def stTrainedA : ModelState :=
  { model := some rfFittedA, scaler := { fitted := some scalerFitA },
    model_version := "1.0.0", is_trained := true }

/-- The response `predict_weather` produces on `stTrainedA`, `obsA`,
hour 12, timestamp 0. -/
def predA : WeatherPrediction :=
  { location := "loc", predicted_temp := 20, confidence := 0.95,
    forecast_hours := 1, timestamp := 0, model_version := "1.0.0" }

/-- An environment in which both artifacts exist and load successfully. -/
def envLoadA : Env :=
  { rand42 := fun _ _ => 0, normal42 := fun _ => 0,
    rfFit := fun _ _ => { predictFn := fun _ => 0 }, sqrtQ := fun q => q,
    model_file_exists := true, model_load := some rfFittedA,
    scaler_load := some scalerFitA, dump_model_ok := true, dump_scaler_ok := true }

/-- An environment in which the model artifact file exists but loading it
raises (a corrupt artifact). -/
def envCorruptA : Env :=
  { rand42 := fun _ _ => 0, normal42 := fun _ => 0,
    rfFit := fun _ _ => { predictFn := fun _ => 0 }, sqrtQ := fun q => q,
    model_file_exists := true, model_load := none,
    scaler_load := none, dump_model_ok := true, dump_scaler_ok := true }

/-- An environment with no persisted model artifact in which bootstrap
training runs and both artifact dumps succeed. -/
def envBootA : Env :=
  { rand42 := fun _ _ => 1/2, normal42 := fun _ => 0,
    rfFit := fun _ _ => { predictFn := fun _ => 0 }, sqrtQ := fun q => q,
    model_file_exists := false, model_load := none,
    scaler_load := none, dump_model_ok := true, dump_scaler_ok := true }

/-- An environment with no persisted model artifact in which bootstrap
training runs but persisting the model artifact raises. -/
def envDumpFailA : Env :=
  { rand42 := fun _ _ => 1/2, normal42 := fun _ => 0,
    rfFit := fun _ _ => { predictFn := fun _ => 0 }, sqrtQ := fun q => q,
    model_file_exists := false, model_load := none,
    scaler_load := none, dump_model_ok := false, dump_scaler_ok := true }

/-- A state marked trained whose forest is the unfit degraded 50-tree
model but whose scaler is fitted — the state reached when an artifact
dump fails after bootstrap training. -/
def stDegradedTrainedA : ModelState :=
  { model := some degradedModel50, scaler := { fitted := some scalerFitA },
    model_version := "1.0.0", is_trained := true }

/-! Helper lemmas. -/

/-- Component values of `rawFeature`. -/
theorem rawFeature_apply (r : Fin 5 → ℚ) :
    rawFeature r 0 = r 0 * 40 - 10 ∧ rawFeature r 1 = r 1 * 100 ∧
    rawFeature r 2 = r 2 * 100 + 950 ∧ rawFeature r 3 = r 3 * 20 ∧
    rawFeature r 4 = r 4 * 24 :=
  ⟨rfl, rfl, rfl, rfl, rfl⟩

/-- `roundHalfToEven` never rounds below an integer lower bound. -/
theorem roundHalfToEven_ge (m : ℤ) (q : ℚ) (h : (m : ℚ) ≤ q) :
    m ≤ roundHalfToEven q := by
  have hm : m ≤ ⌊q⌋ := Int.le_floor.mpr h
  unfold roundHalfToEven
  dsimp only
  split
  · exact hm
  · split
    · omega
    · split <;> omega

/-- `roundHalfToEven` never rounds above an integer upper bound. -/
theorem roundHalfToEven_le (m : ℤ) (q : ℚ) (h : q ≤ (m : ℚ)) :
    roundHalfToEven q ≤ m := by
  have hf : ⌊q⌋ ≤ m := by
    have := Int.floor_le_floor h
    simpa using this
  unfold roundHalfToEven
  dsimp only
  split
  · exact hf
  · rename_i h1
    push_neg at h1
    have hfl : (⌊q⌋ : ℚ) + 1/2 ≤ q := by linarith
    have hlt : ⌊q⌋ < m := by
      by_contra hc
      push_neg at hc
      have hem : ⌊q⌋ = m := le_antisymm hf hc
      rw [hem] at hfl
      linarith
    split
    · omega
    · split <;> omega

/-- Rounding a confidence already in `[0.6, 0.95]` to three decimals keeps
it in `[0.6, 0.95]`. -/
theorem pyRound3_confidence_bounds (c : ℚ) (h1 : 0.6 ≤ c) (h2 : c ≤ 0.95) :
    0.6 ≤ pyRound 3 c ∧ pyRound 3 c ≤ 0.95 := by
  have hge : (600 : ℤ) ≤ roundHalfToEven (c * 10 ^ 3) := by
    apply roundHalfToEven_ge
    push_cast
    nlinarith
  have hle : roundHalfToEven (c * 10 ^ 3) ≤ (950 : ℤ) := by
    apply roundHalfToEven_le
    push_cast
    nlinarith
  have hpos : (0 : ℚ) < 10 ^ 3 := by norm_num
  constructor
  · rw [pyRound, le_div_iff₀ hpos]
    calc (0.6 : ℚ) * 10 ^ 3 = ((600 : ℤ) : ℚ) := by norm_num
    _ ≤ _ := by exact_mod_cast hge
  · rw [pyRound, div_le_iff₀ hpos]
    calc ((roundHalfToEven (c * 10 ^ 3) : ℤ) : ℚ) ≤ ((950 : ℤ) : ℚ) := by
          exact_mod_cast hle
    _ = (0.95 : ℚ) * 10 ^ 3 := by norm_num

/-- The clamp `min 0.95 (max 0.6 e)` lies in `[0.6, 0.95]`. -/
theorem clamp_bounds (e : ℚ) :
    0.6 ≤ min (0.95 : ℚ) (max 0.6 e) ∧ min (0.95 : ℚ) (max 0.6 e) ≤ 0.95 :=
  ⟨le_min (by norm_num) (le_max_left _ _), min_le_left _ _⟩

/-- Shape of a successful run of the `try` block of `predict_weather`. -/
theorem predictPipeline_ok_shape (st : ModelState) (w : WeatherInput)
    (features : Fin 5 → ℚ) (now : ℕ) (pred : WeatherPrediction)
    (h : predictPipeline st w features now = Except.ok pred) :
    ∃ scaled pt, st.scaler.transform features = Except.ok scaled ∧
      modelPredictRow st.model scaled = Except.ok pt ∧
      pred = { location := w.location
               predicted_temp := pyRound 2 pt
               confidence :=
                 pyRound 3 (min 0.95 (max 0.6 (1.0 - |pt - w.current_temp| / 10)))
               forecast_hours := 1
               timestamp := now
               model_version := st.model_version } := by
  unfold predictPipeline at h
  cases hts : st.scaler.transform features with
  | error e => rw [hts] at h; exact absurd h (by simp)
  | ok scaled =>
    rw [hts] at h
    dsimp only at h
    cases hmp : modelPredictRow st.model scaled with
    | error e => rw [hmp] at h; exact absurd h (by simp)
    | ok pt =>
      rw [hmp] at h
      simp only [Except.ok.injEq] at h
      exact ⟨scaled, pt, rfl, hmp, h.symm⟩

/-- The state component of `_train_dummy_model` does not depend on whether
the artifact dumps succeed: mutations happen before the dumps. -/
theorem train_dummy_model_fst (env : Env) (st : ModelState) :
    (train_dummy_model env st).1 =
      match st.model with
      | none => { st with scaler := { fitted := some (fitScaler env (trainX env)) } }
      | some m =>
        { st with
          scaler := { fitted := some (fitScaler env (trainX env)) }
          model := some { m with fitted := some (env.rfFit (scaledX env) (trainY env)) }
          is_trained := true } := by
  unfold train_dummy_model
  cases st.model with
  | none => rfl
  | some m =>
    dsimp only
    split
    · rfl
    · split <;> rfl

/-- `_initialize_model` never touches `self.model_version`. -/
theorem initialize_model_version (env : Env) (st : ModelState) :
    (initialize_model env st).1.model_version = st.model_version := by
  unfold initialize_model
  cases hmf : env.model_file_exists with
  | false =>
    rw [if_neg (by simp)]
    dsimp only
    rcases htr : train_dummy_model env { st with model := some freshModel100 } with
      ⟨st2, written, err⟩
    have h2 : st2.model_version = st.model_version := by
      have := train_dummy_model_fst env { st with model := some freshModel100 }
      rw [htr] at this
      dsimp only at this
      rw [this]
    cases err <;> simpa using h2
  | true =>
    rw [if_pos rfl]
    cases env.model_load with
    | none => rfl
    | some m =>
      cases env.scaler_load with
      | none => rfl
      | some sf => rfl

/-- Restore path of `_initialize_model`: the artifact file exists and both
loads succeed. -/
theorem initialize_model_restore (env : Env) (st : ModelState)
    (m : RFModel) (sf : ScalerFit) (h1 : env.model_file_exists = true)
    (h2 : env.model_load = some m) (h3 : env.scaler_load = some sf) :
    initialize_model env st =
      ({ st with model := some m, scaler := { fitted := some sf },
                 is_trained := true }, []) := by
  unfold initialize_model
  rw [if_pos h1, h2, h3]

/-- Load-failure path of `_initialize_model`: the artifact file exists but
one of the two loads raises; the `except` branch installs the unfit
50-tree forest and nothing else changes. -/
theorem initialize_model_load_failure (env : Env) (st : ModelState)
    (h1 : env.model_file_exists = true)
    (h2 : env.model_load = none ∨ env.scaler_load = none) :
    initialize_model env st =
      ({ st with model := some degradedModel50 }, []) := by
  unfold initialize_model
  rw [if_pos h1]
  rcases h2 with h2 | h2
  · rw [h2]
  · cases hml : env.model_load with
    | none => rfl
    | some m => rw [h2]

/-- Bootstrap path of `_initialize_model` with both dumps succeeding. -/
theorem initialize_model_bootstrap_ok (env : Env) (st : ModelState)
    (h1 : env.model_file_exists = false) (h2 : env.dump_model_ok = true)
    (h3 : env.dump_scaler_ok = true) :
    initialize_model env st =
      ({ st with
          model := some { freshModel100 with
            fitted := some (env.rfFit (scaledX env) (trainY env)) },
          scaler := { fitted := some (fitScaler env (trainX env)) },
          is_trained := true },
       ["model.joblib", "scaler.joblib"]) := by
  unfold initialize_model
  rw [if_neg (by simp [h1])]
  unfold train_dummy_model
  dsimp only
  rw [if_neg (by simp [h2]), if_neg (by simp [h3])]

/-- Dump-failure path of `_initialize_model`: bootstrap training completes
and marks the state trained, then an artifact dump raises, and the
`except` branch replaces the fitted forest by the unfit 50-tree one while
`is_trained` stays true. -/
theorem initialize_model_dump_failure (env : Env) (st : ModelState)
    (h1 : env.model_file_exists = false)
    (h2 : env.dump_model_ok = false ∨ env.dump_scaler_ok = false) :
    (initialize_model env st).1 =
      { st with model := some degradedModel50,
                scaler := { fitted := some (fitScaler env (trainX env)) },
                is_trained := true } := by
  unfold initialize_model
  rw [if_neg (by simp [h1])]
  unfold train_dummy_model
  dsimp only
  by_cases hm : env.dump_model_ok = false
  · rw [if_pos hm]
  · rcases h2 with h2 | h2
    · exact absurd h2 hm
    · rw [if_neg hm, if_pos h2]

/-! The claims. -/

/-- Claim C1: for every trained model state and observation, any successful
prediction carries confidence computed as
`round(min(0.95, max(0.6, 1.0 - |predicted_temp - current_temp| / 10)), 3)`
on the raw regressor output, and this confidence lies in `[0.6, 0.95]`. -/
theorem c1_confidence_clamp (st : ModelState) (w : WeatherInput)
    (current_hour now : ℕ) (pred : WeatherPrediction)
    (h : predict_weather st w current_hour now = Except.ok pred) :
    (∃ scaled pt,
       st.scaler.transform (buildFeatures w current_hour) = Except.ok scaled ∧
       modelPredictRow st.model scaled = Except.ok pt ∧
       pred.confidence =
         pyRound 3 (min 0.95 (max 0.6 (1.0 - |pt - w.current_temp| / 10)))) ∧
    0.6 ≤ pred.confidence ∧ pred.confidence ≤ 0.95 := by
  unfold predict_weather at h
  split at h
  · exact absurd h (by simp)
  · obtain ⟨scaled, pt, h1, h2, h3⟩ := predictPipeline_ok_shape _ _ _ _ _ h
    subst h3
    refine ⟨⟨scaled, pt, h1, h2, rfl⟩, ?_⟩
    have hc := clamp_bounds (1.0 - |pt - w.current_temp| / 10)
    exact pyRound3_confidence_bounds _ hc.1 hc.2

/-- Witness for C1: a concrete trained state and observation on which the
prediction succeeds. -/
theorem c1_witness :
    (∃ scaled pt,
       stTrainedA.scaler.transform (buildFeatures obsA 12) = Except.ok scaled ∧
       modelPredictRow stTrainedA.model scaled = Except.ok pt ∧
       predA.confidence =
         pyRound 3 (min 0.95 (max 0.6 (1.0 - |pt - obsA.current_temp| / 10)))) ∧
    0.6 ≤ predA.confidence ∧ predA.confidence ≤ 0.95 :=
  c1_confidence_clamp stTrainedA obsA 12 0 predA (by
    simp [predict_weather, predictPipeline, buildFeatures, StdScaler.transform,
          modelPredictRow, stTrainedA, obsA, rfFittedA, scalerFitA, predA]
    norm_num [pyRound, roundHalfToEven])

/-- Claim C2: whenever the trained flag is false, `predict_weather` fails
with the service-unavailable condition (HTTP 503, "Model not trained") for
every input, and returns no prediction value. -/
theorem c2_untrained_unavailable (st : ModelState) (w : WeatherInput)
    (current_hour now : ℕ) (h : st.is_trained = false) :
    predict_weather st w current_hour now =
      Except.error { status_code := 503, detail := "Model not trained" } := by
  unfold predict_weather
  rw [if_pos h]

/-- Witness for C2: the freshly constructed state is untrained and the
concrete call fails with 503. -/
theorem c2_witness :
    ModelState.init.is_trained = false ∧
    predict_weather ModelState.init obsB 7 3 =
      Except.error { status_code := 503, detail := "Model not trained" } :=
  ⟨rfl, c2_untrained_unavailable ModelState.init obsB 7 3 rfl⟩

/-- Claim C6: the feature vector passed to the scaler and regressor is
exactly the fixed-order 5-tuple [current temperature, humidity, pressure,
wind speed, hour-of-day], the hour taken verbatim; on a trained state the
prediction path consumes exactly this vector. -/
theorem c6_feature_vector_order (w : WeatherInput) (current_hour : ℕ) :
    buildFeatures w current_hour 0 = w.current_temp ∧
    buildFeatures w current_hour 1 = (w.humidity : ℚ) ∧
    buildFeatures w current_hour 2 = w.pressure ∧
    buildFeatures w current_hour 3 = w.wind_speed ∧
    buildFeatures w current_hour 4 = (current_hour : ℚ) ∧
    ∀ st now, st.is_trained = true →
      predict_weather st w current_hour now =
        predictPipeline st w (buildFeatures w current_hour) now := by
  refine ⟨rfl, rfl, rfl, rfl, rfl, ?_⟩
  intro st now htr
  unfold predict_weather
  rw [if_neg (by simp [htr])]

/-- Witness for C6 at a concrete observation, hour and trained state. -/
theorem c6_witness :
    buildFeatures obsA 12 0 = obsA.current_temp ∧
    buildFeatures obsA 12 1 = (obsA.humidity : ℚ) ∧
    buildFeatures obsA 12 2 = obsA.pressure ∧
    buildFeatures obsA 12 3 = obsA.wind_speed ∧
    buildFeatures obsA 12 4 = (12 : ℚ) ∧
    predict_weather stTrainedA obsA 12 5 =
      predictPipeline stTrainedA obsA (buildFeatures obsA 12) 5 :=
  ⟨(c6_feature_vector_order obsA 12).1,
   (c6_feature_vector_order obsA 12).2.1,
   (c6_feature_vector_order obsA 12).2.2.1,
   (c6_feature_vector_order obsA 12).2.2.2.1,
   (c6_feature_vector_order obsA 12).2.2.2.2.1,
   (c6_feature_vector_order obsA 12).2.2.2.2.2 stTrainedA 5 rfl⟩

/-- Claim C9: for a fixed state and hour, two invocations of
`predict_weather` differing only in the response timestamp produce
identical results apart from that timestamp, and the call leaves the
model state unchanged. -/
theorem c9_deterministic_and_pure (st : ModelState) (w : WeatherInput)
    (current_hour t1 t2 : ℕ) :
    (predict_weather st w current_hour t1).map WeatherPrediction.sansTime =
      (predict_weather st w current_hour t2).map WeatherPrediction.sansTime ∧
    (predict_weather_full st w current_hour t1).2 = st := by
  refine ⟨?_, rfl⟩
  unfold predict_weather
  split
  · rfl
  · unfold predictPipeline
    cases hts : st.scaler.transform (buildFeatures w current_hour) with
    | error e => rfl
    | ok scaled =>
      dsimp only
      cases hmp : modelPredictRow st.model scaled with
      | error e => rfl
      | ok pt => rfl

/-- Claim C10: two observations agreeing on location and the four numeric
fields but differing in `historical_data` produce identical predictions:
the reserved field never influences the output. -/
theorem c10_historical_noninterference (st : ModelState)
    (current_hour now : ℕ) (w1 w2 : WeatherInput)
    (hloc : w1.location = w2.location)
    (htemp : w1.current_temp = w2.current_temp)
    (hhum : w1.humidity = w2.humidity)
    (hpres : w1.pressure = w2.pressure)
    (hwind : w1.wind_speed = w2.wind_speed) :
    predict_weather st w1 current_hour now =
      predict_weather st w2 current_hour now := by
  have hbf : buildFeatures w1 current_hour = buildFeatures w2 current_hour := by
    unfold buildFeatures
    rw [htemp, hhum, hpres, hwind]
  have hpp : predictPipeline st w1 (buildFeatures w2 current_hour) now =
      predictPipeline st w2 (buildFeatures w2 current_hour) now := by
    unfold predictPipeline
    simp only [htemp, hloc]
  unfold predict_weather
  rw [hbf, hpp]

/-- Witness for C10: two concrete observations that differ exactly in
`historical_data` yield the same response. -/
theorem c10_witness :
    obsA.location = obsB.location ∧ obsA.current_temp = obsB.current_temp ∧
    obsA.humidity = obsB.humidity ∧ obsA.pressure = obsB.pressure ∧
    obsA.wind_speed = obsB.wind_speed ∧ obsA ≠ obsB ∧
    predict_weather stTrainedA obsA 12 0 = predict_weather stTrainedA obsB 12 0 :=
  ⟨rfl, rfl, rfl, rfl, rfl, by decide,
   c10_historical_noninterference stTrainedA 12 0 obsA obsB rfl rfl rfl rfl rfl⟩

/-- Claim C7: every successful prediction has `predicted_temp` rounded to
2 decimals from the raw regressor output, confidence rounded to 3 decimals,
`forecast_hours = 1`, `model_version = "1.0.0"` and the location of the
input, for any state built by the service constructor. -/
theorem c7_response_fields (env : Env) (w : WeatherInput)
    (current_hour now : ℕ) (pred : WeatherPrediction)
    (h : predict_weather (AIWeatherPredictor.new env).1 w current_hour now =
      Except.ok pred) :
    (∃ scaled pt,
       (AIWeatherPredictor.new env).1.scaler.transform
           (buildFeatures w current_hour) = Except.ok scaled ∧
       modelPredictRow (AIWeatherPredictor.new env).1.model scaled =
         Except.ok pt ∧
       pred.predicted_temp = pyRound 2 pt ∧
       pred.confidence =
         pyRound 3 (min 0.95 (max 0.6 (1.0 - |pt - w.current_temp| / 10)))) ∧
    pred.forecast_hours = 1 ∧ pred.model_version = "1.0.0" ∧
    pred.timestamp = now ∧ pred.location = w.location := by
  unfold predict_weather at h
  split at h
  · exact absurd h (by simp)
  · obtain ⟨scaled, pt, h1, h2, h3⟩ := predictPipeline_ok_shape _ _ _ _ _ h
    subst h3
    refine ⟨⟨scaled, pt, h1, h2, rfl, rfl⟩, rfl, ?_, rfl, rfl⟩
    show (AIWeatherPredictor.new env).1.model_version = "1.0.0"
    unfold AIWeatherPredictor.new
    rw [initialize_model_version]
    rfl

/-- Witness for C7: a concrete environment restoring a fitted model, on
which prediction succeeds with the expected field values. -/
theorem c7_witness :
    (∃ scaled pt,
       (AIWeatherPredictor.new envLoadA).1.scaler.transform
           (buildFeatures obsA 12) = Except.ok scaled ∧
       modelPredictRow (AIWeatherPredictor.new envLoadA).1.model scaled =
         Except.ok pt ∧
       predA.predicted_temp = pyRound 2 pt ∧
       predA.confidence =
         pyRound 3 (min 0.95 (max 0.6 (1.0 - |pt - obsA.current_temp| / 10)))) ∧
    predA.forecast_hours = 1 ∧ predA.model_version = "1.0.0" ∧
    predA.timestamp = 0 ∧ predA.location = obsA.location :=
  c7_response_fields envLoadA obsA 12 0 predA (by
    simp [AIWeatherPredictor.new, initialize_model, envLoadA, ModelState.init,
          predict_weather, predictPipeline, buildFeatures, StdScaler.transform,
          modelPredictRow, rfFittedA, scalerFitA, obsA, predA]
    norm_num [pyRound, roundHalfToEven])

/-- Claim C8: the only failures `predict_weather` raises are 503 "Model
not trained" when untrained and 500 "Prediction failed" otherwise; any
exception raised by the feature transform or the regressor on a trained
state is re-signalled as the constant 500 message, which does not carry
the internal cause. -/
theorem c8_error_taxonomy (st : ModelState) (w : WeatherInput)
    (current_hour now : ℕ) :
    (st.is_trained = false →
       predict_weather st w current_hour now =
         Except.error { status_code := 503, detail := "Model not trained" }) ∧
    (∀ e, predict_weather st w current_hour now = Except.error e →
       e = { status_code := 503, detail := "Model not trained" } ∨
       e = { status_code := 500, detail := "Prediction failed" }) ∧
    (∀ cause,
       st.scaler.transform (buildFeatures w current_hour) =
         Except.error cause →
       st.is_trained = true →
       predict_weather st w current_hour now =
         Except.error { status_code := 500, detail := "Prediction failed" }) ∧
    (∀ scaled cause,
       st.scaler.transform (buildFeatures w current_hour) = Except.ok scaled →
       modelPredictRow st.model scaled = Except.error cause →
       st.is_trained = true →
       predict_weather st w current_hour now =
         Except.error { status_code := 500, detail := "Prediction failed" }) := by
  refine ⟨?_, ?_, ?_, ?_⟩
  · intro h
    unfold predict_weather
    rw [if_pos h]
  · intro e he
    unfold predict_weather at he
    split at he
    · left
      simpa [eq_comm] using he
    · right
      unfold predictPipeline at he
      cases hts : st.scaler.transform (buildFeatures w current_hour) with
      | error c => rw [hts] at he; simpa [eq_comm] using he
      | ok scaled =>
        rw [hts] at he
        dsimp only at he
        cases hmp : modelPredictRow st.model scaled with
        | error c => rw [hmp] at he; simpa [eq_comm] using he
        | ok pt => rw [hmp] at he; exact absurd he (by simp)
  · intro cause hc htr
    unfold predict_weather
    rw [if_neg (by simp [htr])]
    unfold predictPipeline
    rw [hc]
  · intro scaled cause hs hc htr
    unfold predict_weather
    rw [if_neg (by simp [htr])]
    unfold predictPipeline
    rw [hs]
    dsimp only
    rw [hc]

/-- Witness for C8: an untrained state yields 503, and a trained state
whose regressor is unfit yields the opaque 500 via the caught
`NotFittedError`. -/
theorem c8_witness :
    predict_weather ModelState.init obsA 0 0 =
      Except.error { status_code := 503, detail := "Model not trained" } ∧
    predict_weather stDegradedTrainedA obsA 0 0 =
      Except.error { status_code := 500, detail := "Prediction failed" } :=
  ⟨(c8_error_taxonomy ModelState.init obsA 0 0).1 rfl,
   (c8_error_taxonomy stDegradedTrainedA obsA 0 0).2.2.2
     (fun j => (buildFeatures obsA 0 j - scalerFitA.mean j) / scalerFitA.scale j)
     "NotFittedError" rfl rfl rfl⟩

/-- Counterexample to C3 as stated: in the environment where the model
artifact file exists but is corrupt (its load raises), initialization does
not construct a 100-tree regressor, does not run bootstrap training, does
not persist artifacts and does not mark the state trained — it installs
an unfit 50-tree forest and leaves `is_trained = false`. -/
theorem c3_counterexample :
    envCorruptA.model_file_exists = true ∧
    envCorruptA.model_load = none ∧
    (AIWeatherPredictor.new envCorruptA).1.is_trained = false ∧
    (AIWeatherPredictor.new envCorruptA).1.model = some degradedModel50 ∧
    degradedModel50.n_estimators = 50 ∧
    (AIWeatherPredictor.new envCorruptA).2 = [] :=
  ⟨rfl, rfl, rfl, rfl, rfl, rfl⟩

/-- Claim C3 (amended): initialization restores the persisted state and
marks `trained = true` exactly when the model artifact file exists and
both artifacts load; when the model artifact file does not exist it
builds the 100-tree (depth 10, seed 42) regressor, runs bootstrap
training and (when the dumps succeed) persists both artifacts; but when
the model artifact file exists and a load raises, it degrades to the
unfit 50-tree forest instead of bootstrapping. -/
theorem c3_amended_lifecycle (env : Env) :
    (∀ m sf, env.model_file_exists = true → env.model_load = some m →
       env.scaler_load = some sf →
       AIWeatherPredictor.new env =
         ({ ModelState.init with
             model := some m,
             scaler := { fitted := some sf }, is_trained := true }, [])) ∧
    (env.model_file_exists = false → env.dump_model_ok = true →
       env.dump_scaler_ok = true →
       AIWeatherPredictor.new env =
         ({ ModelState.init with
             model := some { freshModel100 with
               fitted := some (env.rfFit (scaledX env) (trainY env)) },
             scaler := { fitted := some (fitScaler env (trainX env)) },
             is_trained := true },
          ["model.joblib", "scaler.joblib"])) ∧
    (env.model_file_exists = true →
       (env.model_load = none ∨ env.scaler_load = none) →
       AIWeatherPredictor.new env =
         ({ ModelState.init with model := some degradedModel50 }, [])) := by
  refine ⟨?_, ?_, ?_⟩
  · intro m sf h1 h2 h3
    exact initialize_model_restore env ModelState.init m sf h1 h2 h3
  · intro h1 h2 h3
    exact initialize_model_bootstrap_ok env ModelState.init h1 h2 h3
  · intro h1 h2
    exact initialize_model_load_failure env ModelState.init h1 h2

/-- Witness for the amended C3: a concrete environment whose artifacts
load, on which the constructor restores the fitted state. -/
theorem c3_amended_witness :
    AIWeatherPredictor.new envLoadA =
      ({ ModelState.init with
          model := some rfFittedA,
          scaler := { fitted := some scalerFitA }, is_trained := true }, []) :=
  (c3_amended_lifecycle envLoadA).1 rfFittedA scalerFitA rfl rfl rfl

/-- Counterexample to C4 as stated: when bootstrap training succeeds but
persisting the model artifact raises, initialization degrades to the
50-tree forest, yet the degraded instance has `is_trained = true`, and a
subsequent predict call fails with 500 "Prediction failed" rather than
the "model unavailable" 503. -/
theorem c4_counterexample :
    envDumpFailA.model_file_exists = false ∧
    envDumpFailA.dump_model_ok = false ∧
    (AIWeatherPredictor.new envDumpFailA).1.model = some degradedModel50 ∧
    (AIWeatherPredictor.new envDumpFailA).1.is_trained = true ∧
    predict_weather (AIWeatherPredictor.new envDumpFailA).1 obsA 12 0 =
      Except.error { status_code := 500, detail := "Prediction failed" } :=
  ⟨rfl, rfl, rfl, rfl, rfl⟩

/-- Claim C4 (amended): if initialization raises, the service degrades to
a 50-tree ensemble instead of crashing; the degraded instance has
`trained = false` — and predict then fails with "model unavailable" —
exactly when the failure happened before bootstrap training completed
(artifact loading); if the failure happened while persisting artifacts
after training, `trained` stays true and predict instead fails with the
generic "prediction failed" condition. -/
theorem c4_amended_degradation (env : Env) :
    (env.model_file_exists = true →
       (env.model_load = none ∨ env.scaler_load = none) →
       (AIWeatherPredictor.new env).1.model = some degradedModel50 ∧
       (AIWeatherPredictor.new env).1.is_trained = false ∧
       ∀ w current_hour now,
         predict_weather (AIWeatherPredictor.new env).1 w current_hour now =
           Except.error { status_code := 503, detail := "Model not trained" }) ∧
    (env.model_file_exists = false →
       (env.dump_model_ok = false ∨ env.dump_scaler_ok = false) →
       (AIWeatherPredictor.new env).1.model = some degradedModel50 ∧
       (AIWeatherPredictor.new env).1.is_trained = true ∧
       ∀ w current_hour now,
         predict_weather (AIWeatherPredictor.new env).1 w current_hour now =
           Except.error { status_code := 500, detail := "Prediction failed" }) := by
  constructor
  · intro h1 h2
    have hnew := initialize_model_load_failure env ModelState.init h1 h2
    unfold AIWeatherPredictor.new
    rw [hnew]
    exact ⟨rfl, rfl, fun w current_hour now => rfl⟩
  · intro h1 h2
    have hnew := initialize_model_dump_failure env ModelState.init h1 h2
    unfold AIWeatherPredictor.new
    rw [hnew]
    exact ⟨rfl, rfl, fun w current_hour now => rfl⟩

/-- Witness for the amended C4 at the concrete dump-failure environment. -/
theorem c4_amended_witness :
    (AIWeatherPredictor.new envDumpFailA).1.model = some degradedModel50 ∧
    (AIWeatherPredictor.new envDumpFailA).1.is_trained = true ∧
    ∀ w current_hour now,
      predict_weather (AIWeatherPredictor.new envDumpFailA).1 w current_hour now =
        Except.error { status_code := 500, detail := "Prediction failed" } :=
  (c4_amended_degradation envDumpFailA).2 rfl (Or.inl rfl)

/-- Claim C5: bootstrap training synthesizes exactly 1000 samples; each
raw feature row is the uniform draw remapped to temperature in [-10, 30),
humidity in [0, 100), pressure in [950, 1050), wind speed in [0, 20) and
hour in [0, 24) whenever the draws lie in [0, 1); each label is
temperature + 0.1*humidity - 0.05*pressure plus the noise draw; the
scaler is fitted on the raw matrix and the regressor on (scaled matrix,
labels); and the procedure is a function of the seed-42 streams alone, so
re-running it with the same streams yields the same fitted parameters and
the same predictions for a fixed input and hour. -/
theorem c5_bootstrap_deterministic (env : Env)
    (hu : ∀ i, i < 1000 → ∀ j, 0 ≤ env.rand42 i j ∧ env.rand42 i j < 1) :
    (trainX env).length = 1000 ∧
    (trainY env).length = 1000 ∧
    (∀ i, i < 1000 →
       (trainX env)[i]? = some (rawFeature (env.rand42 i)) ∧
       (-10 ≤ rawFeature (env.rand42 i) 0 ∧ rawFeature (env.rand42 i) 0 < 30) ∧
       (0 ≤ rawFeature (env.rand42 i) 1 ∧ rawFeature (env.rand42 i) 1 < 100) ∧
       (950 ≤ rawFeature (env.rand42 i) 2 ∧ rawFeature (env.rand42 i) 2 < 1050) ∧
       (0 ≤ rawFeature (env.rand42 i) 3 ∧ rawFeature (env.rand42 i) 3 < 20) ∧
       (0 ≤ rawFeature (env.rand42 i) 4 ∧ rawFeature (env.rand42 i) 4 < 24) ∧
       (trainY env)[i]? = some (rawFeature (env.rand42 i) 0 +
          0.1 * rawFeature (env.rand42 i) 1 - 0.05 * rawFeature (env.rand42 i) 2 +
          env.normal42 i)) ∧
    (∀ st m, st.model = some m →
       (train_dummy_model env st).1 =
         { st with
             scaler := { fitted := some (fitScaler env (trainX env)) },
             model := some { m with
               fitted := some (env.rfFit (scaledX env) (trainY env)) },
             is_trained := true }) ∧
    (∀ env2, env2.rand42 = env.rand42 → env2.normal42 = env.normal42 →
       env2.rfFit = env.rfFit → env2.sqrtQ = env.sqrtQ →
       trainX env2 = trainX env ∧ trainY env2 = trainY env ∧
       fitScaler env2 (trainX env2) = fitScaler env (trainX env) ∧
       scaledX env2 = scaledX env ∧
       (∀ st, (train_dummy_model env2 st).1 = (train_dummy_model env st).1) ∧
       (∀ st w current_hour now,
          predict_weather (train_dummy_model env2 st).1 w current_hour now =
            predict_weather (train_dummy_model env st).1 w current_hour now)) := by
  refine ⟨by simp [trainX], by simp [trainY], ?_, ?_, ?_⟩
  · intro i hi
    obtain ⟨hr0, hr1, hr2, hr3, hr4⟩ := rawFeature_apply (env.rand42 i)
    refine ⟨by simp [trainX, List.getElem?_map, List.getElem?_range, hi],
            ?_, ?_, ?_, ?_, ?_,
            by simp [trainY, List.getElem?_map, List.getElem?_range, hi]⟩
    · rw [hr0]
      have := hu i hi 0
      constructor <;> linarith [this.1, this.2]
    · rw [hr1]
      have := hu i hi 1
      constructor <;> linarith [this.1, this.2]
    · rw [hr2]
      have := hu i hi 2
      constructor <;> linarith [this.1, this.2]
    · rw [hr3]
      have := hu i hi 3
      constructor <;> linarith [this.1, this.2]
    · rw [hr4]
      have := hu i hi 4
      constructor <;> linarith [this.1, this.2]
  · intro st m hst
    rw [train_dummy_model_fst, hst]
  · intro env2 h1 h2 h3 h4
    have htx : trainX env2 = trainX env := by
      unfold trainX; rw [h1]
    have hty : trainY env2 = trainY env := by
      unfold trainY; rw [h1, h2]
    have hsf2 : fitScaler env2 (trainX env) = fitScaler env (trainX env) := by
      unfold fitScaler; rw [h4]
    have hsf : fitScaler env2 (trainX env2) = fitScaler env (trainX env) := by
      rw [htx]; exact hsf2
    have hsc : scaledX env2 = scaledX env := by
      unfold scaledX; rw [htx, hsf2]
    have htd : ∀ st, (train_dummy_model env2 st).1 = (train_dummy_model env st).1 := by
      intro st
      rw [train_dummy_model_fst, train_dummy_model_fst]
      cases st.model with
      | none => rw [hsf]
      | some m => rw [hsf, hsc, hty, h3]
    exact ⟨htx, hty, hsf, hsc, htd, fun st w current_hour now => by rw [htd st]⟩

/-- Witness for C5 at a concrete environment whose uniform draws are all
one half. -/
theorem c5_witness :
    (trainX envBootA).length = 1000 ∧
    (trainY envBootA).length = 1000 ∧
    (∀ i, i < 1000 →
       (trainX envBootA)[i]? = some (rawFeature (envBootA.rand42 i)) ∧
       (-10 ≤ rawFeature (envBootA.rand42 i) 0 ∧
         rawFeature (envBootA.rand42 i) 0 < 30) ∧
       (0 ≤ rawFeature (envBootA.rand42 i) 1 ∧
         rawFeature (envBootA.rand42 i) 1 < 100) ∧
       (950 ≤ rawFeature (envBootA.rand42 i) 2 ∧
         rawFeature (envBootA.rand42 i) 2 < 1050) ∧
       (0 ≤ rawFeature (envBootA.rand42 i) 3 ∧
         rawFeature (envBootA.rand42 i) 3 < 20) ∧
       (0 ≤ rawFeature (envBootA.rand42 i) 4 ∧
         rawFeature (envBootA.rand42 i) 4 < 24) ∧
       (trainY envBootA)[i]? = some (rawFeature (envBootA.rand42 i) 0 +
          0.1 * rawFeature (envBootA.rand42 i) 1 -
          0.05 * rawFeature (envBootA.rand42 i) 2 + envBootA.normal42 i)) ∧
    (∀ st m, st.model = some m →
       (train_dummy_model envBootA st).1 =
         { st with
             scaler := { fitted := some (fitScaler envBootA (trainX envBootA)) },
             model := some { m with
               fitted := some (envBootA.rfFit (scaledX envBootA) (trainY envBootA)) },
             is_trained := true }) ∧
    (∀ env2, env2.rand42 = envBootA.rand42 → env2.normal42 = envBootA.normal42 →
       env2.rfFit = envBootA.rfFit → env2.sqrtQ = envBootA.sqrtQ →
       trainX env2 = trainX envBootA ∧ trainY env2 = trainY envBootA ∧
       fitScaler env2 (trainX env2) = fitScaler envBootA (trainX envBootA) ∧
       scaledX env2 = scaledX envBootA ∧
       (∀ st, (train_dummy_model env2 st).1 = (train_dummy_model envBootA st).1) ∧
       (∀ st w current_hour now,
          predict_weather (train_dummy_model env2 st).1 w current_hour now =
            predict_weather (train_dummy_model envBootA st).1 w current_hour now)) :=
  c5_bootstrap_deterministic envBootA (by
    intro i hi j
    norm_num [envBootA])
